import Mathlib

/-!
# FinGaurd fraud-detection core: shallow embedding

Embedding of `src/python-fraud-service/app/services/fraud_detector.py`
(class `FraudDetectionService`) and of the anomaly-blend step in
`src/python-fraud-service/app/api/v1/fraud.py` (`analyze_transaction`,
lines 67-79).

Modelling conventions:
* Python `Decimal` amounts, `float` scores and epoch instants are `ℚ`
  (the scoring arithmetic is exact rational arithmetic; `round(x, 4)`
  is banker's rounding, modelled by `round4`).
* A `datetime` enters scoring only through its UTC hour/minute (time
  scorer, anomaly string) and its position on the time line (velocity
  tracker); the embedded input carries those as separate fields.
* The velocity map `_user_transactions : Dict[str, List[datetime]]` is
  `VState := String → Option (List ℚ)` (`none` = key absent, as in
  `dict.get(user_id, [])`).
* The `try/except` of `analyze_transaction` is modelled by
  `analyzeTransactionTry`, which matches on an `Except` outcome of the
  scoring body and returns `failSafeResult` on the error branch.
-/

namespace FinGaurd

/-- Banker's rounding (round half to even) of a rational to an integer,
as Python's built-in `round` does. -/
def roundHalfEven (x : ℚ) : ℤ :=
  let f : ℤ := ⌊x⌋
  let r : ℚ := x - f
  if r < 1/2 then f
  else if 1/2 < r then f + 1
  else if f % 2 = 0 then f else f + 1

/-- Python `round(x, 4)`. -/
def round4 (x : ℚ) : ℚ := (roundHalfEven (x * 10000) : ℚ) / 10000

/-- Velocity-tracker state: `FraudDetectionService._user_transactions`. -/
def VState : Type := String → Option (List ℚ)

/-- Constant `WEIGHT_AMOUNT = 0.30`. -/
def WEIGHT_AMOUNT : ℚ := 30/100
/-- Constant `WEIGHT_TIME = 0.15`. -/
def WEIGHT_TIME : ℚ := 15/100
/-- Constant `WEIGHT_VELOCITY = 0.25`. -/
def WEIGHT_VELOCITY : ℚ := 25/100
/-- Constant `WEIGHT_CATEGORY = 0.15`. -/
def WEIGHT_CATEGORY : ℚ := 15/100
/-- Constant `WEIGHT_PATTERN = 0.15`. -/
def WEIGHT_PATTERN : ℚ := 15/100

/-- Constant `HIGH_AMOUNT_THRESHOLD = Decimal("5000.00")`. -/
def HIGH_AMOUNT_THRESHOLD : ℚ := 5000
/-- Constant `VERY_HIGH_AMOUNT_THRESHOLD = Decimal("25000.00")`. -/
def VERY_HIGH_AMOUNT_THRESHOLD : ℚ := 25000
/-- Constant `VELOCITY_WINDOW_SECONDS = 60`. -/
def VELOCITY_WINDOW_SECONDS : ℚ := 60
/-- Constant `VELOCITY_MAX_TRANSACTIONS = 3`. -/
def VELOCITY_MAX_TRANSACTIONS : ℕ := 3

/-- Set `HIGH_RISK_CATEGORIES` of the source class. -/
def HIGH_RISK_CATEGORIES : List String :=
  ["cryptocurrency", "gambling", "adult services",
   "cash advance", "international transfer", "wire transfer"]

/-- Set `MEDIUM_RISK_CATEGORIES` of the source class. -/
def MEDIUM_RISK_CATEGORIES : List String :=
  ["investment", "foreign exchange", "money order",
   "peer transfer", "gift card"]

/-- The suspicious-keyword list of `_score_pattern`. -/
def suspiciousWords : List String :=
  ["urgent", "wire", "bitcoin", "crypto", "offshore",
   "anonymous", "untraceable", "dark", "hack"]

/-- Method `_score_amount` (fraud_detector.py lines 219-233). -/
def scoreAmount (amount : ℚ) : ℚ :=
  if VERY_HIGH_AMOUNT_THRESHOLD ≤ amount then 1
  else if HIGH_AMOUNT_THRESHOLD ≤ amount then
    1/2 + ((amount - HIGH_AMOUNT_THRESHOLD)
            / (VERY_HIGH_AMOUNT_THRESHOLD - HIGH_AMOUNT_THRESHOLD)) * (1/2)
  else if (1000 : ℚ) ≤ amount then
    (amount - 1000) / 4000 * (3/10)
  else 0

/-- Method `_score_time` (lines 235-244), as a function of the UTC hour `dt.hour`. -/
def scoreTime (hour : ℕ) : ℚ :=
  if hour < 5 then 8/10
  else if hour = 5 ∨ hour = 23 then 4/10
  else 0

/-- The velocity tracker's record-and-count step (lines 248-256 of
`_score_velocity`): prune the user's history to instants strictly inside
the trailing 60-second window, append `now`, store, return the count. -/
def recordAndCount (σ : VState) (user : String) (now : ℚ) :
    ℕ × VState :=
  let cutoff := now - VELOCITY_WINDOW_SECONDS
  let history := ((σ user).getD []).filter (fun t => decide (cutoff < t))
  let history := history ++ [now]
  (history.length, fun v => if v = user then some history else σ v)

/-- Method `_score_velocity` (lines 246-263): record the transaction, then map
the in-window count to a score. -/
def scoreVelocity (σ : VState) (user : String) (now : ℚ) :
    ℚ × VState :=
  let cs := recordAndCount σ user now
  let count := cs.1
  let score :=
    if VELOCITY_MAX_TRANSACTIONS * 2 < count then (1 : ℚ)
    else if VELOCITY_MAX_TRANSACTIONS < count then
      let excess := count - VELOCITY_MAX_TRANSACTIONS
      min 1 (1/2 + ((excess : ℚ) / (VELOCITY_MAX_TRANSACTIONS : ℚ)) * (1/2))
    else 0
  (score, cs.2)

/-- Python `str.lower()` on the character list of a string. -/
def lowerChars (s : String) : List Char := s.data.map Char.toLower

/-- Python `str.strip()` on a character list: drop leading and trailing
whitespace. -/
def trimChars (l : List Char) : List Char :=
  ((l.dropWhile Char.isWhitespace).reverse.dropWhile Char.isWhitespace).reverse

/-- Method `_score_category` (lines 265-272): `(category or "").lower().strip()`
matched against the two fixed sets. -/
def scoreCategory (category : String) : ℚ :=
  let catLower := trimChars (lowerChars category)
  if (HIGH_RISK_CATEGORIES.map String.data).contains catLower then 9/10
  else if (MEDIUM_RISK_CATEGORIES.map String.data).contains catLower then 4/10
  else 0

/-- Whether `needle` is a prefix of `haystack` (on character lists). -/
def listStartsWith : List Char → List Char → Bool
  | [], _ => true
  | _ :: _, [] => false
  | a :: as, b :: bs => a = b && listStartsWith as bs

/-- Python's substring test `needle in haystack` on character lists. -/
def listContainsSub (needle : List Char) : List Char → Bool
  | [] => needle.isEmpty
  | b :: bs => listStartsWith needle (b :: bs) || listContainsSub needle bs

/-- Number of distinct suspicious keywords occurring (case-insensitively,
as substrings) in a description: `sum(1 for word in suspicious_words if
word in desc_lower)`. -/
def keywordMatches (desc : String) : ℕ :=
  (suspiciousWords.filter
    (fun w => listContainsSub w.data (lowerChars desc))).length

/-- Integrality test `amount == amount.to_integral_value()` on `Decimal`. -/
def isIntegral (amount : ℚ) : Bool := amount.den = 1

/-- Method `_score_pattern` (lines 274-295); `if description:` is false for both
`None` and the empty string. -/
def scorePattern (description : Option String) (amount : ℚ) : ℚ :=
  let score : ℚ :=
    match description with
    | none => 0
    | some d =>
      if d = "" then 0
      else
        let nMatches := keywordMatches d
        if 2 ≤ nMatches then 8/10
        else if nMatches = 1 then 4/10
        else 0
  let score :=
    if (100 : ℚ) < amount ∧ isIntegral amount then max score (15/100)
    else score
  min 1 score

/-- The transaction attributes `analyze_transaction` consumes, after the
timestamp has been normalized to UTC.  `hour`/`minute` are
`transaction_date.hour` / `.minute`; `time` is the instant itself on the
rational time line (used by the velocity tracker). -/
structure AnalyzeInput where
  transaction_id : Option String
  user_id : String
  amount : ℚ
  category : String
  hour : ℕ
  minute : ℕ
  time : ℚ
  description : Option String

/-- The result dict of `analyze_transaction` (without the
`transaction_id` echo field, which no claim concerns). -/
structure AnalysisResult where
  risk_score : ℚ
  is_fraud : Bool
  detected_anomalies : List String
  confidence : ℚ
  model_version : String
  details : List (String × ℚ)
deriving DecidableEq

/-- Two-digit zero-padded rendering used by `strftime("%H:%M")`. -/
def pad2 (n : ℕ) : String :=
  if n < 10 then "0" ++ toString n else toString n

/-- The body of `analyze_transaction`'s `try` block (lines 76-155):
score the five factors, collect anomaly strings, combine with the fixed
weights, clamp, decide fraud against the threshold, derive confidence,
round for reporting.  Returns the result together with the updated
velocity state. -/
def analyzeBody (threshold : ℚ) (modelVersion : String)
    (σ : VState) (inp : AnalyzeInput) : AnalysisResult × VState :=
  let amountScore := scoreAmount inp.amount
  let timeScore := scoreTime inp.hour
  let vs := scoreVelocity σ inp.user_id inp.time
  let velocityScore := vs.1
  let categoryScore := scoreCategory inp.category
  let patternScore := scorePattern inp.description inp.amount
  let anomalies : List String :=
    (if 3/10 < amountScore then
      ["High transaction amount: $" ++ toString inp.amount] else [])
    ++ (if 3/10 < timeScore then
      ["Suspicious transaction time: " ++ pad2 inp.hour ++ ":"
        ++ pad2 inp.minute ++ " UTC"] else [])
    ++ (if 3/10 < velocityScore then
      ["Rapid transaction activity detected"] else [])
    ++ (if 3/10 < categoryScore then
      ["High-risk category: " ++ inp.category] else [])
    ++ (if 3/10 < patternScore then
      ["Suspicious transaction pattern"] else [])
  let riskScore :=
    WEIGHT_AMOUNT * amountScore
    + WEIGHT_TIME * timeScore
    + WEIGHT_VELOCITY * velocityScore
    + WEIGHT_CATEGORY * categoryScore
    + WEIGHT_PATTERN * patternScore
  let riskScore := max 0 (min 1 riskScore)
  let isFraud := decide (threshold ≤ riskScore)
  let factorScores :=
    [amountScore, timeScore, velocityScore, categoryScore, patternScore]
  let nonZeroFactors := (factorScores.filter (fun s => decide (1/10 < s))).length
  let confidence :=
    if isFraud then min (99/100) (6/10 + (nonZeroFactors : ℚ) * (8/100))
    else min (99/100) (7/10 + ((5 - nonZeroFactors : ℕ) : ℚ) * (6/100))
  let result : AnalysisResult :=
    { risk_score := round4 riskScore
      is_fraud := isFraud
      detected_anomalies := anomalies
      confidence := round4 confidence
      model_version := modelVersion
      details :=
        [("amount", amountScore), ("time_of_day", timeScore),
         ("velocity", velocityScore), ("category", categoryScore),
         ("pattern", patternScore)] }
  (result, vs.2)

/-- The `except` branch of `analyze_transaction` (lines 160-168). -/
def failSafeResult (modelVersion : String) : AnalysisResult :=
  { risk_score := 0
    is_fraud := false
    detected_anomalies := ["Analysis error occurred"]
    confidence := 0
    model_version := modelVersion
    details := [] }

/-- Shape of `analyze_transaction`'s `try/except`: the scoring body's outcome
(`ok` when it completes, `error` when it raises) is mapped to either the
result or the fail-safe fallback; no error escapes. -/
def analyzeTransactionTry (modelVersion : String)
    (outcome : Except String (AnalysisResult × VState)) (σ : VState) :
    AnalysisResult × VState :=
  match outcome with
  | .ok rv => rv
  | .error _ => (failSafeResult modelVersion, σ)

/-- The anomaly-blend step of the `/analyze` endpoint
(fraud.py lines 74-79): when an ML score is available, blend it 30/70
into the risk score and re-decide fraud on the blended, rounded score;
otherwise pass the result through unchanged. -/
def blendAnomalyScore (threshold : ℚ) (r : AnalysisResult)
    (mlScore : Option ℚ) : AnalysisResult :=
  match mlScore with
  | none => r
  | some s =>
    let blended := round4 (r.risk_score * (7/10) + s * (3/10))
    { r with
        risk_score := blended
        is_fraud := decide (threshold ≤ blended) }

/-- Method-shaped view of `_score_amount`: as a method of the service it
receives the instance state and returns it with the score; the source
method neither reads nor writes `_user_transactions`. -/
def scoreAmountM (σ : VState) (amount : ℚ) : ℚ × VState :=
  (scoreAmount amount, σ)

/-- Method-shaped view of `_score_time`. -/
def scoreTimeM (σ : VState) (hour : ℕ) : ℚ × VState :=
  (scoreTime hour, σ)

/-- Method-shaped view of `_score_category`. -/
def scoreCategoryM (σ : VState) (category : String) : ℚ × VState :=
  (scoreCategory category, σ)

/-- Method-shaped view of `_score_pattern`. -/
def scorePatternM (σ : VState) (description : Option String)
    (amount : ℚ) : ℚ × VState :=
  (scorePattern description amount, σ)

/-- Keyword contribution of the pattern scorer as the spec words it:
0.8 for at least two distinct keyword matches, 0.4 for exactly one,
0.0 for none or an absent description. -/
def specKeywordScore : Option String → ℚ
  | none => 0
  | some d =>
    if 2 ≤ keywordMatches d then 8/10
    else if keywordMatches d = 1 then 4/10
    else 0

/-- Round-number contribution of the pattern scorer as the spec words
it: 0.15 when the amount exceeds 100 and is an exact integer value. -/
def specRoundNumberScore (amount : ℚ) : ℚ :=
  if (100 : ℚ) < amount ∧ isIntegral amount then 15/100 else 0

/-- The velocity map with no users recorded (fresh service instance). -/
def emptyState : VState := fun _ => none

/-- A velocity map in which user `u` has five recorded instants that all
lie inside the 60-second window before instant 1000. -/
def sigmaC1 : VState :=
  fun u => if u = "u" then some [999, 999, 999, 999, 999] else none

/-- A transaction whose clamped weighted risk sum is 0.69997: amount
4332 (score 0.2499), hour 3 (score 0.8), sixth in-window transaction for
its user (velocity score 1.0), high-risk category (0.9), two suspicious
keywords (0.8). -/
def inpC1 : AnalyzeInput :=
  { transaction_id := none, user_id := "u", amount := 4332,
    category := "cryptocurrency", hour := 3, minute := 0, time := 1000,
    description := some "urgent bitcoin" }

/-- The spec's second scenario: amount 30000 at 03:00 UTC, no
description, default category, no prior history. -/
def inpC6 : AnalyzeInput :=
  { transaction_id := none, user_id := "u", amount := 30000,
    category := "", hour := 3, minute := 0, time := 0,
    description := none }

/-- An arbitrary concrete analysis result, used to instantiate
blend-adapter facts. -/
def exampleResult : AnalysisResult :=
  { risk_score := 1/2, is_fraud := false,
    detected_anomalies := ["High-risk category: gambling"],
    confidence := 9/10, model_version := "1.0.0", details := [] }


/-! ## Helper lemmas -/

/-- Pruning keeps a whole history that lies inside the window. -/
theorem filter_keep_all (l : List ℚ) (c : ℚ) (h : ∀ t ∈ l, c < t) :
    l.filter (fun t => decide (c < t)) = l := by
  induction l with
  | nil => rfl
  | cons x xs ih =>
    simp only [List.filter_cons]
    rw [if_pos (by simp [h x (by simp)]), ih (fun t ht => h t (by simp [ht]))]

/-- Pruning drops a whole history that lies outside the window. -/
theorem filter_drop_all (l : List ℚ) (c : ℚ) (h : ∀ t ∈ l, ¬ c < t) :
    l.filter (fun t => decide (c < t)) = [] := by
  induction l with
  | nil => rfl
  | cons x xs ih =>
    simp only [List.filter_cons]
    rw [if_neg (by simp [h x (by simp)]), ih (fun t ht => h t (by simp [ht]))]

/-- Stored history after one velocity-scoring call. -/
theorem scoreVelocity_store (σ : VState) (u : String) (now : ℚ) :
    (scoreVelocity σ u now).2 u =
      some (((σ u).getD []).filter
        (fun t => decide (now - VELOCITY_WINDOW_SECONDS < t)) ++ [now]) := by
  unfold scoreVelocity recordAndCount
  simp

/-- Count reported by the record-and-count step. -/
theorem recordAndCount_fst (σ : VState) (u : String) (now : ℚ) :
    (recordAndCount σ u now).1 =
      (((σ u).getD []).filter
        (fun t => decide (now - VELOCITY_WINDOW_SECONDS < t))).length + 1 := by
  unfold recordAndCount
  simp

/-- Velocity score as a function of the recorded count. -/
theorem scoreVelocity_fst (σ : VState) (u : String) (now : ℚ) :
    (scoreVelocity σ u now).1 =
      (if VELOCITY_MAX_TRANSACTIONS * 2 < (recordAndCount σ u now).1 then (1 : ℚ)
       else if VELOCITY_MAX_TRANSACTIONS < (recordAndCount σ u now).1 then
         min 1 (1/2 + (((recordAndCount σ u now).1 - VELOCITY_MAX_TRANSACTIONS : ℕ) : ℚ)
           / (VELOCITY_MAX_TRANSACTIONS : ℚ) * (1/2))
       else 0) := rfl


/-- C1 (amended): the reported risk_score is the five-factor weighted
sum, clamped to [0,1] and rounded to 4 decimals; is_fraud is true
exactly when the clamped but *unrounded* weighted sum reaches the
configured threshold. -/
theorem C1_weighted_sum_and_threshold (threshold : ℚ) (mv : String)
    (σ : VState) (inp : AnalyzeInput) :
    (analyzeBody threshold mv σ inp).1.risk_score =
      round4 (max 0 (min 1
        (WEIGHT_AMOUNT * scoreAmount inp.amount
          + WEIGHT_TIME * scoreTime inp.hour
          + WEIGHT_VELOCITY * (scoreVelocity σ inp.user_id inp.time).1
          + WEIGHT_CATEGORY * scoreCategory inp.category
          + WEIGHT_PATTERN * scorePattern inp.description inp.amount))) ∧
    ((analyzeBody threshold mv σ inp).1.is_fraud = true ↔
      threshold ≤ max 0 (min 1
        (WEIGHT_AMOUNT * scoreAmount inp.amount
          + WEIGHT_TIME * scoreTime inp.hour
          + WEIGHT_VELOCITY * (scoreVelocity σ inp.user_id inp.time).1
          + WEIGHT_CATEGORY * scoreCategory inp.category
          + WEIGHT_PATTERN * scorePattern inp.description inp.amount))) := by
  refine ⟨rfl, ?_⟩
  simp [analyzeBody]

/-- C1 counterexample: a transaction whose clamped weighted sum is
0.69997 is reported with risk_score 0.7 (the rounded value reaches the
default threshold) yet is_fraud is false, because the code compares the
unrounded score against the threshold. -/
theorem C1_counterexample :
    (analyzeBody (7/10) "1.0.0" sigmaC1 inpC1).1.risk_score = 7/10 ∧
    (analyzeBody (7/10) "1.0.0" sigmaC1 inpC1).1.is_fraud = false ∧
    ¬((analyzeBody (7/10) "1.0.0" sigmaC1 inpC1).1.is_fraud = true ↔
      7/10 ≤ (analyzeBody (7/10) "1.0.0" sigmaC1 inpC1).1.risk_score) := by
  have hv : (scoreVelocity sigmaC1 "u" 1000).1 = 1 := by
    unfold scoreVelocity recordAndCount VELOCITY_WINDOW_SECONDS
      VELOCITY_MAX_TRANSACTIONS sigmaC1
    norm_num [List.filter]
  have ha : scoreAmount 4332 = 2499/10000 := by
    unfold scoreAmount HIGH_AMOUNT_THRESHOLD VERY_HIGH_AMOUNT_THRESHOLD
    norm_num
  have ht : scoreTime 3 = 8/10 := by unfold scoreTime; norm_num
  have hc : scoreCategory "cryptocurrency" = 9/10 := by
    unfold scoreCategory
    simp only [show ((HIGH_RISK_CATEGORIES.map String.data).contains
      (trimChars (lowerChars "cryptocurrency"))) = true from by decide]
    norm_num
  have hp : scorePattern (some "urgent bitcoin") 4332 = 8/10 := by
    unfold scorePattern isIntegral
    simp only [show keywordMatches "urgent bitcoin" = 2 from by decide,
      show ("urgent bitcoin" = "") = False from by decide]
    norm_num [show ((4332:ℚ).den = 1) = True from by norm_num [Rat.den_ofNat],
      min_def, max_def]
  have hr : (analyzeBody (7/10) "1.0.0" sigmaC1 inpC1).1.risk_score = 7/10 ∧
      (analyzeBody (7/10) "1.0.0" sigmaC1 inpC1).1.is_fraud = false := by
    unfold analyzeBody inpC1
    simp only [hv, ha, ht, hc, hp]
    unfold WEIGHT_AMOUNT WEIGHT_TIME WEIGHT_VELOCITY WEIGHT_CATEGORY WEIGHT_PATTERN
    norm_num [round4, roundHalfEven, min_def, max_def]
  refine ⟨hr.1, hr.2, ?_⟩
  rw [hr.1, hr.2]
  simp

/-- C2: an internal error during scoring yields exactly the fail-safe
result — risk_score 0, is_fraud false, the single anomaly string,
confidence 0 — and the error is absorbed, not propagated. -/
theorem C2_fail_safe (mv : String) (e : String) (σ : VState) :
    analyzeTransactionTry mv (Except.error e) σ = (failSafeResult mv, σ) ∧
    (failSafeResult mv).risk_score = 0 ∧
    (failSafeResult mv).is_fraud = false ∧
    (failSafeResult mv).detected_anomalies = ["Analysis error occurred"] ∧
    (failSafeResult mv).confidence = 0 :=
  ⟨rfl, rfl, rfl, rfl, rfl⟩

/-- C3: with an anomaly score present the blend replaces risk_score by
the rounded 70/30 mix and re-decides fraud on that blended score, leaving
every other field unchanged; with the score absent the result passes
through unchanged. -/
theorem C3_blend_contract (threshold : ℚ) (r : AnalysisResult) (s : ℚ)
    (h0 : 0 ≤ s) (h1 : s ≤ 1) :
    (blendAnomalyScore threshold r (some s)).risk_score =
      round4 (r.risk_score * (7/10) + s * (3/10)) ∧
    ((blendAnomalyScore threshold r (some s)).is_fraud = true ↔
      threshold ≤ round4 (r.risk_score * (7/10) + s * (3/10))) ∧
    (blendAnomalyScore threshold r (some s)).detected_anomalies =
      r.detected_anomalies ∧
    (blendAnomalyScore threshold r (some s)).confidence = r.confidence ∧
    (blendAnomalyScore threshold r (some s)).model_version = r.model_version ∧
    (blendAnomalyScore threshold r (some s)).details = r.details ∧
    blendAnomalyScore threshold r none = r := by
  refine ⟨rfl, ?_, rfl, rfl, rfl, rfl, rfl⟩
  simp [blendAnomalyScore]

/-- Witness for C3 at threshold 0.7, a concrete result and score 1/2. -/
theorem C3_blend_contract_witness :
    (blendAnomalyScore (7/10) exampleResult (some (1/2))).detected_anomalies =
      exampleResult.detected_anomalies ∧
    blendAnomalyScore (7/10) exampleResult none = exampleResult :=
  ⟨(C3_blend_contract (7/10) exampleResult (1/2)
      (by norm_num) (by norm_num)).2.2.1,
   (C3_blend_contract (7/10) exampleResult (1/2)
      (by norm_num) (by norm_num)).2.2.2.2.2.2⟩

/-- C9: the amount, time, category and pattern scorers are pure — as
state-passing methods they return the velocity state untouched and their
score does not depend on it — and the whole analysis changes state only
through the velocity tracker's record-and-count step. -/
theorem C9_scorers_pure (σ σ' : VState) (a : ℚ) (h : ℕ) (c : String)
    (d : Option String) (threshold : ℚ) (mv : String) (inp : AnalyzeInput) :
    scoreAmountM σ a = (scoreAmount a, σ) ∧
    (scoreAmountM σ a).1 = (scoreAmountM σ' a).1 ∧
    scoreTimeM σ h = (scoreTime h, σ) ∧
    (scoreTimeM σ h).1 = (scoreTimeM σ' h).1 ∧
    scoreCategoryM σ c = (scoreCategory c, σ) ∧
    (scoreCategoryM σ c).1 = (scoreCategoryM σ' c).1 ∧
    scorePatternM σ d a = (scorePattern d a, σ) ∧
    (scorePatternM σ d a).1 = (scorePatternM σ' d a).1 ∧
    (analyzeBody threshold mv σ inp).2 =
      (recordAndCount σ inp.user_id inp.time).2 :=
  ⟨rfl, rfl, rfl, rfl, rfl, rfl, rfl, rfl, rfl⟩

/-- C10: analyzing a transaction leaves the velocity entry of every
other user unchanged. -/
theorem C10_frame (threshold : ℚ) (mv : String) (σ : VState)
    (inp : AnalyzeInput) (v : String) (hv : v ≠ inp.user_id) :
    (analyzeBody threshold mv σ inp).2 v = σ v := by
  unfold analyzeBody scoreVelocity recordAndCount
  simp [hv]

/-- Witness for C10: a concrete other user's entry survives an analysis. -/
theorem C10_frame_witness :
    (analyzeBody (7/10) "1.0.0" emptyState inpC6).2 "other" =
      emptyState "other" :=
  C10_frame (7/10) "1.0.0" emptyState inpC6 "other" (by decide)


/-- C4: after record-and-count for user `u` at instant `T`, the stored
sequence is exactly the retained (strictly in-window) old entries
followed by `T`; `T` is present; every stored entry is `T` itself or a
previously stored entry inside the trailing window; the returned count
is the stored length; an absent user behaves as an empty history. -/
theorem C4_record_and_count (σ : VState) (u : String) (T : ℚ) :
    (recordAndCount σ u T).2 u =
      some (((σ u).getD []).filter
        (fun t => decide (T - VELOCITY_WINDOW_SECONDS < t)) ++ [T]) ∧
    T ∈ ((recordAndCount σ u T).2 u).getD [] ∧
    (∀ t ∈ ((recordAndCount σ u T).2 u).getD [],
      t = T ∨ (t ∈ (σ u).getD [] ∧ T - VELOCITY_WINDOW_SECONDS < t)) ∧
    (recordAndCount σ u T).1 = (((recordAndCount σ u T).2 u).getD []).length ∧
    (σ u = none →
      (recordAndCount σ u T).2 u = some [T] ∧ (recordAndCount σ u T).1 = 1) := by
  have hstore : (recordAndCount σ u T).2 u =
      some (((σ u).getD []).filter
        (fun t => decide (T - VELOCITY_WINDOW_SECONDS < t)) ++ [T]) := by
    unfold recordAndCount; simp
  refine ⟨hstore, ?_, ?_, ?_, ?_⟩
  · rw [hstore]; simp
  · intro t ht
    rw [hstore] at ht
    simp only [Option.getD_some, List.mem_append, List.mem_filter,
      List.mem_singleton, decide_eq_true_eq] at ht
    rcases ht with ⟨hmem, hwin⟩ | hT
    · exact Or.inr ⟨hmem, hwin⟩
    · exact Or.inl hT
  · rw [hstore]
    unfold recordAndCount
    simp
  · intro hnone
    rw [hstore, hnone]
    unfold recordAndCount
    simp [hnone]

/-- Witness for C4: a fresh user's first transaction is stored alone and
counted as 1. -/
theorem C4_record_and_count_witness :
    (recordAndCount emptyState "u" 0).2 "u" = some [(0 : ℚ)] ∧
    (recordAndCount emptyState "u" 0).1 = 1 :=
  (C4_record_and_count emptyState "u" 0).2.2.2.2 rfl

/-- C5: the amount scorer follows the three-band formula with score 0
below 1000, is strictly increasing on [5000, 25000), takes value 0.5 at
5000 and 1.0 at 25000, and its band formula reaches exactly 1 at the
25000 boundary. -/
theorem C5_amount_bands :
    (∀ a : ℚ, 25000 ≤ a → scoreAmount a = 1) ∧
    (∀ a : ℚ, 5000 ≤ a → a < 25000 →
      scoreAmount a = 1/2 + ((a - 5000) / 20000) * (1/2)) ∧
    (∀ a : ℚ, 1000 ≤ a → a < 5000 →
      scoreAmount a = (a - 1000) / 4000 * (3/10)) ∧
    (∀ a : ℚ, a < 1000 → scoreAmount a = 0) ∧
    (∀ a b : ℚ, 5000 ≤ a → a < b → b < 25000 →
      scoreAmount a < scoreAmount b) ∧
    scoreAmount 5000 = 1/2 ∧
    scoreAmount 25000 = 1 ∧
    1/2 + (((25000 : ℚ) - 5000) / 20000) * (1/2) = 1 := by
  have h1 : ∀ a : ℚ, 25000 ≤ a → scoreAmount a = 1 := by
    intro a ha
    unfold scoreAmount VERY_HIGH_AMOUNT_THRESHOLD
    rw [if_pos ha]
  have h2 : ∀ a : ℚ, 5000 ≤ a → a < 25000 →
      scoreAmount a = 1/2 + ((a - 5000) / 20000) * (1/2) := by
    intro a ha hb
    unfold scoreAmount VERY_HIGH_AMOUNT_THRESHOLD HIGH_AMOUNT_THRESHOLD
    rw [if_neg (by linarith), if_pos ha]
    norm_num
  have h3 : ∀ a : ℚ, 1000 ≤ a → a < 5000 →
      scoreAmount a = (a - 1000) / 4000 * (3/10) := by
    intro a ha hb
    unfold scoreAmount VERY_HIGH_AMOUNT_THRESHOLD HIGH_AMOUNT_THRESHOLD
    rw [if_neg (by linarith), if_neg (by linarith), if_pos ha]
  have h4 : ∀ a : ℚ, a < 1000 → scoreAmount a = 0 := by
    intro a ha
    unfold scoreAmount VERY_HIGH_AMOUNT_THRESHOLD HIGH_AMOUNT_THRESHOLD
    rw [if_neg (by linarith), if_neg (by linarith), if_neg (by linarith)]
  have h5 : ∀ a b : ℚ, 5000 ≤ a → a < b → b < 25000 →
      scoreAmount a < scoreAmount b := by
    intro a b ha hab hb
    rw [h2 a ha (lt_trans hab hb), h2 b (le_trans ha (le_of_lt hab)) hb]
    have : (a - 5000) / 20000 * (1/2) < (b - 5000) / 20000 * (1/2) := by
      have h20 : (a - 5000) * (1/40000) < (b - 5000) * (1/40000) := by linarith
      calc (a - 5000) / 20000 * (1/2) = (a - 5000) * (1/40000) := by ring
        _ < (b - 5000) * (1/40000) := h20
        _ = (b - 5000) / 20000 * (1/2) := by ring
    linarith
  refine ⟨h1, h2, h3, h4, h5, ?_, h1 25000 le_rfl, by norm_num⟩
  rw [h2 5000 le_rfl (by norm_num)]
  norm_num

/-- Witness for C5: band values and strict growth at concrete amounts. -/
theorem C5_amount_bands_witness :
    scoreAmount 30000 = 1 ∧ scoreAmount 500 = 0 ∧
    scoreAmount 6000 < scoreAmount 7000 :=
  ⟨C5_amount_bands.1 30000 (by norm_num),
   C5_amount_bands.2.2.2.1 500 (by norm_num),
   C5_amount_bands.2.2.2.2.1 6000 7000 (by norm_num) (by norm_num) (by norm_num)⟩


/-- C6 counterexample: on the scenario input (amount 30000, 03:00 UTC,
no description, default category, fresh user) the pattern score is 0.15
— the round-number heuristic fires on the integral amount 30000 — so the
risk score is 0.4425, not 0.42 as claimed. -/
theorem C6_counterexample :
    scorePattern inpC6.description inpC6.amount = 3/20 ∧
    (analyzeBody (7/10) "1.0.0" emptyState inpC6).1.risk_score = 4425/10000 ∧
    ¬((analyzeBody (7/10) "1.0.0" emptyState inpC6).1.risk_score = 42/100) := by
  have hp : scorePattern (none : Option String) 30000 = 3/20 := by
    unfold scorePattern isIntegral
    norm_num [Rat.den_ofNat, min_def, max_def]
  have hv : (scoreVelocity emptyState "u" 0).1 = 0 := by
    unfold scoreVelocity recordAndCount emptyState VELOCITY_MAX_TRANSACTIONS
    norm_num
  have ha : scoreAmount 30000 = 1 := by
    unfold scoreAmount VERY_HIGH_AMOUNT_THRESHOLD
    norm_num
  have ht : scoreTime 3 = 8/10 := by unfold scoreTime; norm_num
  have hc : scoreCategory "" = 0 := by
    unfold scoreCategory
    simp only [show ((HIGH_RISK_CATEGORIES.map String.data).contains
      (trimChars (lowerChars ""))) = false from by decide,
      show ((MEDIUM_RISK_CATEGORIES.map String.data).contains
      (trimChars (lowerChars ""))) = false from by decide]
    norm_num
  have hr : (analyzeBody (7/10) "1.0.0" emptyState inpC6).1.risk_score
      = 4425/10000 := by
    unfold analyzeBody inpC6
    simp only [hp, hv, ha, ht, hc]
    unfold WEIGHT_AMOUNT WEIGHT_TIME WEIGHT_VELOCITY WEIGHT_CATEGORY WEIGHT_PATTERN
    norm_num [round4, roundHalfEven, min_def, max_def]
  refine ⟨hp, hr, ?_⟩
  rw [hr]
  norm_num

/-- C6 (amended): on the scenario input the factor scores are amount 1.0,
time 0.8, velocity 0, category 0 and pattern 0.15 (round-number
heuristic), giving risk_score 0.4425, below the 0.7 threshold. -/
theorem C6_scenario :
    scoreAmount 30000 = 1 ∧
    scoreTime 3 = 8/10 ∧
    (scoreVelocity emptyState "u" 0).1 = 0 ∧
    scoreCategory "" = 0 ∧
    scorePattern none 30000 = 3/20 ∧
    (analyzeBody (7/10) "1.0.0" emptyState inpC6).1.risk_score = 4425/10000 ∧
    (analyzeBody (7/10) "1.0.0" emptyState inpC6).1.is_fraud = false := by
  have hp : scorePattern (none : Option String) 30000 = 3/20 := by
    unfold scorePattern isIntegral
    norm_num [Rat.den_ofNat, min_def, max_def]
  have hv : (scoreVelocity emptyState "u" 0).1 = 0 := by
    unfold scoreVelocity recordAndCount emptyState VELOCITY_MAX_TRANSACTIONS
    norm_num
  have ha : scoreAmount 30000 = 1 := by
    unfold scoreAmount VERY_HIGH_AMOUNT_THRESHOLD
    norm_num
  have ht : scoreTime 3 = 8/10 := by unfold scoreTime; norm_num
  have hc : scoreCategory "" = 0 := by
    unfold scoreCategory
    simp only [show ((HIGH_RISK_CATEGORIES.map String.data).contains
      (trimChars (lowerChars ""))) = false from by decide,
      show ((MEDIUM_RISK_CATEGORIES.map String.data).contains
      (trimChars (lowerChars ""))) = false from by decide]
    norm_num
  refine ⟨ha, ht, hv, hc, hp, ?_⟩
  unfold analyzeBody inpC6
  simp only [hp, hv, ha, ht, hc]
  unfold WEIGHT_AMOUNT WEIGHT_TIME WEIGHT_VELOCITY WEIGHT_CATEGORY WEIGHT_PATTERN
  norm_num [round4, roundHalfEven, min_def, max_def]

/-- C7: the pattern score is the maximum of the keyword contribution
(0.8 for two or more distinct keyword matches, 0.4 for exactly one, 0
otherwise or with no description) and the round-number contribution
(0.15 when the amount exceeds 100 and is integral), clamped to 1. -/
theorem C7_pattern_max (d : Option String) (a : ℚ) :
    scorePattern d a =
      min 1 (max (specKeywordScore d) (specRoundNumberScore a)) := by
  unfold scorePattern specKeywordScore specRoundNumberScore
  cases d with
  | none =>
    split_ifs <;> norm_num [min_def, max_def]
  | some s =>
    by_cases hs : s = ""
    · subst hs
      simp only [show keywordMatches "" = 0 from by decide, if_pos rfl]
      norm_num
      split_ifs <;> norm_num [min_def, max_def]
    · simp only [if_neg hs]
      split_ifs <;> norm_num [min_def, max_def]


/-- C8: starting from an empty history, four scoring calls for one user
inside a 10-second span give the fourth call a strictly positive
velocity score, and a fifth call more than 60 seconds after all four
scores 0. -/
theorem C8_velocity_scenario (σ : VState) (u : String) (t1 t2 t3 t4 t5 : ℚ)
    (h0 : (σ u).getD [] = [])
    (hspan : ∃ s : ℚ, (s ≤ t1 ∧ t1 ≤ s + 10) ∧ (s ≤ t2 ∧ t2 ≤ s + 10) ∧
      (s ≤ t3 ∧ t3 ≤ s + 10) ∧ (s ≤ t4 ∧ t4 ≤ s + 10))
    (h5 : t1 + 60 < t5 ∧ t2 + 60 < t5 ∧ t3 + 60 < t5 ∧ t4 + 60 < t5) :
    0 < (scoreVelocity (scoreVelocity (scoreVelocity
      (scoreVelocity σ u t1).2 u t2).2 u t3).2 u t4).1 ∧
    (scoreVelocity (scoreVelocity (scoreVelocity (scoreVelocity
      (scoreVelocity σ u t1).2 u t2).2 u t3).2 u t4).2 u t5).1 = 0 := by
  obtain ⟨s, ⟨hs1a, hs1b⟩, ⟨hs2a, hs2b⟩, ⟨hs3a, hs3b⟩, ⟨hs4a, hs4b⟩⟩ := hspan
  obtain ⟨h51, h52, h53, h54⟩ := h5
  have hW : VELOCITY_WINDOW_SECONDS = 60 := rfl
  have g1 : ((scoreVelocity σ u t1).2 u).getD [] = [t1] := by
    rw [scoreVelocity_store, h0]
    rfl
  have g2 : ((scoreVelocity (scoreVelocity σ u t1).2 u t2).2 u).getD []
      = [t1, t2] := by
    rw [scoreVelocity_store, g1, filter_keep_all]
    · rfl
    · intro t ht
      rw [hW]
      simp only [List.mem_singleton] at ht
      subst ht
      linarith
  have g3 : ((scoreVelocity (scoreVelocity (scoreVelocity σ u t1).2
      u t2).2 u t3).2 u).getD [] = [t1, t2, t3] := by
    rw [scoreVelocity_store, g2, filter_keep_all]
    · rfl
    · intro t ht
      rw [hW]
      simp only [List.mem_cons, List.mem_singleton, List.not_mem_nil,
        or_false] at ht
      rcases ht with rfl | rfl <;> linarith
  have g4 : ((scoreVelocity (scoreVelocity (scoreVelocity (scoreVelocity
      σ u t1).2 u t2).2 u t3).2 u t4).2 u).getD [] = [t1, t2, t3, t4] := by
    rw [scoreVelocity_store, g3, filter_keep_all]
    · rfl
    · intro t ht
      rw [hW]
      simp only [List.mem_cons, List.mem_singleton, List.not_mem_nil,
        or_false] at ht
      rcases ht with rfl | rfl | rfl <;> linarith
  have c4 : (recordAndCount (scoreVelocity (scoreVelocity (scoreVelocity
      σ u t1).2 u t2).2 u t3).2 u t4).1 = 4 := by
    rw [recordAndCount_fst, g3, filter_keep_all]
    · rfl
    · intro t ht
      rw [hW]
      simp only [List.mem_cons, List.mem_singleton, List.not_mem_nil,
        or_false] at ht
      rcases ht with rfl | rfl | rfl <;> linarith
  have c5 : (recordAndCount (scoreVelocity (scoreVelocity (scoreVelocity
      (scoreVelocity σ u t1).2 u t2).2 u t3).2 u t4).2 u t5).1 = 1 := by
    rw [recordAndCount_fst, g4, filter_drop_all]
    · rfl
    · intro t ht
      rw [hW]
      simp only [List.mem_cons, List.mem_singleton, List.not_mem_nil,
        or_false] at ht
      rcases ht with rfl | rfl | rfl | rfl <;> linarith
  constructor
  · rw [scoreVelocity_fst, c4]
    norm_num [VELOCITY_MAX_TRANSACTIONS, min_def]
  · rw [scoreVelocity_fst, c5]
    norm_num [VELOCITY_MAX_TRANSACTIONS]

/-- Witness for C8: four calls at instants 0,1,2,3 and a fifth at 100. -/
theorem C8_velocity_scenario_witness :
    0 < (scoreVelocity (scoreVelocity (scoreVelocity
      (scoreVelocity emptyState "u" 0).2 "u" 1).2 "u" 2).2 "u" 3).1 ∧
    (scoreVelocity (scoreVelocity (scoreVelocity (scoreVelocity
      (scoreVelocity emptyState "u" 0).2 "u" 1).2 "u" 2).2 "u" 3).2
      "u" 100).1 = 0 :=
  C8_velocity_scenario emptyState "u" 0 1 2 3 100 rfl
    ⟨0, by norm_num⟩ (by norm_num)

end FinGaurd
